import Mathlib

/-!
Shallow embedding of the CPU bring-up and software-interrupt dispatch core of
the nUTK x86 kernel (Source/Kernel/Arch/Board/x86/src/kickstart.c): the
descriptor encoders, the GDT, IDT and TSS setup routines and the
cpu_raise_interrupt dispatcher, together with theorems checking the
specification against this model.  Machine integers are modelled as Nat with
explicit masking or reduction modulo powers of two exactly where the C code
truncates.
-/

set_option maxRecDepth 100000

namespace NUTK

/-! ### Selector and flag constants from kickstart.c -/

/-- Kernel 32-bit code segment selector. -/
def KERNEL_CS_32 : Nat := 0x08

/-- Kernel 32-bit data segment selector. -/
def KERNEL_DS_32 : Nat := 0x10

/-- Kernel 16-bit code segment selector. -/
def KERNEL_CS_16 : Nat := 0x18

/-- Kernel 16-bit data segment selector. -/
def KERNEL_DS_16 : Nat := 0x20

/-- User 32-bit code segment selector. -/
def USER_CS_32 : Nat := 0x28

/-- User 32-bit data segment selector. -/
def USER_DS_32 : Nat := 0x30

/-- Kernel TSS segment selector (selector of the first TSS descriptor). -/
def TSS_SEGMENT : Nat := 0x38

/-- Segment base and limit constants used by _cpu_setup_gdt. -/
def KERNEL_CODE_SEGMENT_BASE_32 : Nat := 0x00000000

/-- Kernel 32-bit code segment limit. -/
def KERNEL_CODE_SEGMENT_LIMIT_32 : Nat := 0x000FFFFF

/-- Kernel 32-bit data segment base. -/
def KERNEL_DATA_SEGMENT_BASE_32 : Nat := 0x00000000

/-- Kernel 32-bit data segment limit. -/
def KERNEL_DATA_SEGMENT_LIMIT_32 : Nat := 0x000FFFFF

/-- Kernel 16-bit code segment base. -/
def KERNEL_CODE_SEGMENT_BASE_16 : Nat := 0x00000000

/-- Kernel 16-bit code segment limit. -/
def KERNEL_CODE_SEGMENT_LIMIT_16 : Nat := 0x000FFFFF

/-- Kernel 16-bit data segment base. -/
def KERNEL_DATA_SEGMENT_BASE_16 : Nat := 0x00000000

/-- Kernel 16-bit data segment limit. -/
def KERNEL_DATA_SEGMENT_LIMIT_16 : Nat := 0x000FFFFF

/-- User 32-bit code segment base. -/
def USER_CODE_SEGMENT_BASE_32 : Nat := 0x00000000

/-- User 32-bit code segment limit. -/
def USER_CODE_SEGMENT_LIMIT_32 : Nat := 0x000FFFFF

/-- User 32-bit data segment base. -/
def USER_DATA_SEGMENT_BASE_32 : Nat := 0x00000000

/-- User 32-bit data segment limit. -/
def USER_DATA_SEGMENT_LIMIT_32 : Nat := 0x000FFFFF

/-- GDT granularity flag: 4K blocks. -/
def GDT_FLAG_GRANULARITY_4K : Nat := 0x800000

/-- GDT size flag: 16-bit protected mode segment. -/
def GDT_FLAG_16_BIT_SEGMENT : Nat := 0x000000

/-- GDT size flag: 32-bit protected mode segment. -/
def GDT_FLAG_32_BIT_SEGMENT : Nat := 0x400000

/-- GDT segment present flag. -/
def GDT_FLAG_SEGMENT_PRESENT : Nat := 0x008000

/-- GDT privilege level flag: ring 0. -/
def GDT_FLAG_PL0 : Nat := 0x000000

/-- GDT privilege level flag: ring 3. -/
def GDT_FLAG_PL3 : Nat := 0x006000

/-- GDT data type flag: code. -/
def GDT_FLAG_CODE_TYPE : Nat := 0x001000

/-- GDT data type flag: data. -/
def GDT_FLAG_DATA_TYPE : Nat := 0x001000

/-- GDT access type flag: executable. -/
def GDT_TYPE_EXECUTABLE : Nat := 0x8

/-- GDT access type flag: growth direction down. -/
def GDT_TYPE_GROW_DOWN : Nat := 0x0

/-- GDT access type flag: protected (non-conforming). -/
def GDT_TYPE_PROTECTED : Nat := 0x0

/-- GDT access type flag: readable. -/
def GDT_TYPE_READABLE : Nat := 0x2

/-- GDT access type flag: writable. -/
def GDT_TYPE_WRITABLE : Nat := 0x2

/-- GDT access type flag: accessed. -/
def GDT_TYPE_ACCESSED : Nat := 0x1

/-- IDT flag: privilege level ring 0. -/
def IDT_FLAG_PL0 : Nat := 0x00

/-- IDT flag: gate present. -/
def IDT_FLAG_PRESENT : Nat := 0x80

/-- IDT gate type: interrupt gate. -/
def IDT_TYPE_INT_GATE : Nat := 0x0E

/-- Modelled from the spec: IDT_ENTRY_COUNT comes from a configuration header
that is not among the given sources; the spec fixes the gate table at exactly
256 entries, one per vector 0..255, matching the 256 trampoline addresses the
source registers in cpu_int_handlers. -/
def IDT_ENTRY_COUNT : Nat := 256

/-- Modelled from the spec: MAX_INTERRUPT_LINE comes from a configuration
header that is not among the given sources; the spec fixes the maximum
supported interrupt line at 255 (vectors form the range 0..255). -/
def MAX_INTERRUPT_LINE : Nat := 255

/-- Number of GDT entries: 7 fixed entries plus one TSS descriptor per core
(GDT_ENTRY_COUNT in the source, with MAX_CPU_COUNT as a parameter). -/
def GDT_ENTRY_COUNT (maxCpuCount : Nat) : Nat := 7 + maxCpuCount

/-! ### Descriptor encoders -/

/-- Bit-packing of one 8-byte GDT entry, as performed by _format_gdt_entry:
the low 32-bit word is base[15:0] over limit[15:0]; the high 32-bit word
merges base[23:16], the type nibble shifted to bits 8..11, the flag word
masked with 0x00F0F000, limit bits 16..19 in place, and base[31:24] in
place. -/
def format_gdt_entry (base limit type flags : Nat) : Nat :=
  let lo_part : Nat := ((base &&& 0xFFFF) <<< 16) ||| (limit &&& 0xFFFF)
  let hi_part : Nat :=
    ((base >>> 16) &&& 0xFF) |||
    ((type &&& 0xF) <<< 8) |||
    (flags &&& 0x00F0F000) |||
    (limit &&& 0xF0000) |||
    (base &&& 0xFF000000)
  lo_part ||| (hi_part <<< 32)

/-- Bit-packing of one 8-byte IDT entry, as performed by _format_idt_entry:
the low 32-bit word is the kernel code selector over handler[15:0]; the high
32-bit word merges handler[31:16] with the flag high nibble and the type low
nibble, both shifted to bits 8..15. -/
def format_idt_entry (handler type flags : Nat) : Nat :=
  let lo_part : Nat := (KERNEL_CS_32 <<< 16) ||| (handler &&& 0x0000FFFF)
  let hi_part : Nat :=
    (handler &&& 0xFFFF0000) ||| ((flags &&& 0xF0) <<< 8) ||| ((type &&& 0x0F) <<< 8)
  lo_part ||| (hi_part <<< 32)

/-! ### GDT setup -/

/-- Flag word of the kernel 32-bit code descriptor. -/
def kernel_code_seg_flags : Nat :=
  GDT_FLAG_GRANULARITY_4K ||| GDT_FLAG_32_BIT_SEGMENT ||| GDT_FLAG_PL0 |||
  GDT_FLAG_SEGMENT_PRESENT ||| GDT_FLAG_CODE_TYPE

/-- Type nibble of the kernel 32-bit code descriptor. -/
def kernel_code_seg_type : Nat :=
  GDT_TYPE_EXECUTABLE ||| GDT_TYPE_READABLE ||| GDT_TYPE_PROTECTED

/-- Flag word of the kernel 32-bit data descriptor. -/
def kernel_data_seg_flags : Nat :=
  GDT_FLAG_GRANULARITY_4K ||| GDT_FLAG_32_BIT_SEGMENT ||| GDT_FLAG_PL0 |||
  GDT_FLAG_SEGMENT_PRESENT ||| GDT_FLAG_DATA_TYPE

/-- Type nibble of the kernel 32-bit data descriptor. -/
def kernel_data_seg_type : Nat :=
  GDT_TYPE_WRITABLE ||| GDT_TYPE_GROW_DOWN

/-- Flag word of the kernel 16-bit code descriptor. -/
def kernel_code_16_seg_flags : Nat :=
  GDT_FLAG_GRANULARITY_4K ||| GDT_FLAG_16_BIT_SEGMENT ||| GDT_FLAG_PL0 |||
  GDT_FLAG_SEGMENT_PRESENT ||| GDT_FLAG_CODE_TYPE

/-- Type nibble of the kernel 16-bit code descriptor. -/
def kernel_code_16_seg_type : Nat :=
  GDT_TYPE_EXECUTABLE ||| GDT_TYPE_READABLE ||| GDT_TYPE_PROTECTED

/-- Flag word of the kernel 16-bit data descriptor. -/
def kernel_data_16_seg_flags : Nat :=
  GDT_FLAG_GRANULARITY_4K ||| GDT_FLAG_16_BIT_SEGMENT ||| GDT_FLAG_PL0 |||
  GDT_FLAG_SEGMENT_PRESENT ||| GDT_FLAG_DATA_TYPE

/-- Type nibble of the kernel 16-bit data descriptor. -/
def kernel_data_16_seg_type : Nat :=
  GDT_TYPE_WRITABLE ||| GDT_TYPE_GROW_DOWN

/-- Flag word of the user 32-bit code descriptor. -/
def user_code_32_seg_flags : Nat :=
  GDT_FLAG_GRANULARITY_4K ||| GDT_FLAG_32_BIT_SEGMENT ||| GDT_FLAG_PL3 |||
  GDT_FLAG_SEGMENT_PRESENT ||| GDT_FLAG_CODE_TYPE

/-- Type nibble of the user 32-bit code descriptor. -/
def user_code_32_seg_type : Nat :=
  GDT_TYPE_EXECUTABLE ||| GDT_TYPE_READABLE ||| GDT_TYPE_PROTECTED

/-- Flag word of the user 32-bit data descriptor. -/
def user_data_32_seg_flags : Nat :=
  GDT_FLAG_GRANULARITY_4K ||| GDT_FLAG_32_BIT_SEGMENT ||| GDT_FLAG_PL3 |||
  GDT_FLAG_SEGMENT_PRESENT ||| GDT_FLAG_DATA_TYPE

/-- Type nibble of the user 32-bit data descriptor. -/
def user_data_32_seg_type : Nat :=
  GDT_TYPE_WRITABLE ||| GDT_TYPE_GROW_DOWN

/-- Flag word of the TSS descriptors. -/
def tss_seg_flags : Nat :=
  GDT_FLAG_32_BIT_SEGMENT ||| GDT_FLAG_SEGMENT_PRESENT ||| GDT_FLAG_PL0

/-- Type nibble of the TSS descriptors. -/
def tss_seg_type : Nat :=
  GDT_TYPE_ACCESSED ||| GDT_TYPE_EXECUTABLE

/-- Byte size of the packed cpu_tss_entry_t record: 25 uint32 fields followed
by two uint16 fields, 104 bytes. -/
def cpu_tss_entry_size : Nat := 104

/-- One store of a formatted descriptor into a 64-bit slot of the GDT. -/
structure GdtWrite where
  idx : Nat
  val : Nat

/-- The six fixed descriptor stores of _cpu_setup_gdt, in program order, at
the indices derived from the selector constants. -/
def fixed_gdt_writes : List GdtWrite :=
  [ ⟨KERNEL_CS_32 / 8,
      format_gdt_entry KERNEL_CODE_SEGMENT_BASE_32 KERNEL_CODE_SEGMENT_LIMIT_32
        kernel_code_seg_type kernel_code_seg_flags⟩,
    ⟨KERNEL_DS_32 / 8,
      format_gdt_entry KERNEL_DATA_SEGMENT_BASE_32 KERNEL_DATA_SEGMENT_LIMIT_32
        kernel_data_seg_type kernel_data_seg_flags⟩,
    ⟨KERNEL_CS_16 / 8,
      format_gdt_entry KERNEL_CODE_SEGMENT_BASE_16 KERNEL_CODE_SEGMENT_LIMIT_16
        kernel_code_16_seg_type kernel_code_16_seg_flags⟩,
    ⟨KERNEL_DS_16 / 8,
      format_gdt_entry KERNEL_DATA_SEGMENT_BASE_16 KERNEL_DATA_SEGMENT_LIMIT_16
        kernel_data_16_seg_type kernel_data_16_seg_flags⟩,
    ⟨USER_CS_32 / 8,
      format_gdt_entry USER_CODE_SEGMENT_BASE_32 USER_CODE_SEGMENT_LIMIT_32
        user_code_32_seg_type user_code_32_seg_flags⟩,
    ⟨USER_DS_32 / 8,
      format_gdt_entry USER_DATA_SEGMENT_BASE_32 USER_DATA_SEGMENT_LIMIT_32
        user_data_32_seg_type user_data_32_seg_flags⟩ ]

/-- All GDT stores of _cpu_setup_gdt: the six fixed descriptors then one TSS
descriptor per core at index (TSS_SEGMENT + i * 8) / 8, whose base is the
address of cpu_tss[i] (supplied by the tssAddr parameter) and whose limit is
sizeof(cpu_tss_entry_t). -/
def gdtWrites (maxCpuCount : Nat) (tssAddr : Nat → Nat) : List GdtWrite :=
  fixed_gdt_writes ++
    (List.range maxCpuCount).map (fun i =>
      ⟨(TSS_SEGMENT + i * 0x08) / 8,
        format_gdt_entry (tssAddr i) cpu_tss_entry_size tss_seg_type tss_seg_flags⟩)

/-- Apply a list of stores, in order, to a table given as index to contents. -/
def applyWrites (ws : List GdtWrite) (t : Nat → Nat) : Nat → Nat :=
  ws.foldl (fun t w => fun j => if j = w.idx then w.val else t j) t

/-- Contents of the statically zero-initialized cpu_gdt array before setup;
also the state of the table right after the memset in _cpu_setup_gdt. -/
def gdt_initial : Nat → Nat := fun _ => 0

/-- Contents of cpu_gdt after _cpu_setup_gdt runs: the table is blanked and
the descriptor stores applied in program order. -/
def cpu_setup_gdt (maxCpuCount : Nat) (tssAddr : Nat → Nat) : Nat → Nat :=
  applyWrites (gdtWrites maxCpuCount tssAddr) gdt_initial

/-- Descriptor-table pseudo-descriptor: 16-bit size and 32-bit base, the
packed gdt_ptr_t and idt_ptr_t of the source. -/
structure TablePtr where
  size : Nat
  base : Nat

/-- The gdt_ptr_t written by _cpu_setup_gdt: size is sizeof(uint64_t) times
the entry count minus one, truncated to uint16; base is the 32-bit address of
cpu_gdt, a parameter of the model. -/
def cpu_gdt_ptr (maxCpuCount gdtAddr : Nat) : TablePtr :=
  { size := (8 * GDT_ENTRY_COUNT maxCpuCount - 1) % 2 ^ 16
    base := gdtAddr % 2 ^ 32 }

/-! ### IDT setup -/

/-- Contents of cpu_idt after _cpu_setup_idt runs: the table is blanked, then
every index below IDT_ENTRY_COUNT receives an interrupt gate whose handler is
the trampoline address cpu_int_handlers[i], supplied by the handlers
parameter, with type IDT_TYPE_INT_GATE and flags IDT_FLAG_PRESENT plus
IDT_FLAG_PL0. -/
def cpu_setup_idt (handlers : Nat → Nat) : Nat → Nat :=
  fun i =>
    if i < IDT_ENTRY_COUNT then
      format_idt_entry (handlers i) IDT_TYPE_INT_GATE (IDT_FLAG_PRESENT ||| IDT_FLAG_PL0)
    else 0

/-- The idt_ptr_t written by _cpu_setup_idt: size is sizeof(uint64_t) times
IDT_ENTRY_COUNT minus one, truncated to uint16; base is the 32-bit address of
cpu_idt, a parameter of the model. -/
def cpu_idt_ptr (idtAddr : Nat) : TablePtr :=
  { size := (8 * IDT_ENTRY_COUNT - 1) % 2 ^ 16
    base := idtAddr % 2 ^ 32 }

/-! ### TSS setup -/

/-- The packed cpu_tss_entry_t record, field for field. -/
structure TssEntry where
  prev_tss : Nat
  esp0 : Nat
  ss0 : Nat
  esp1 : Nat
  ss1 : Nat
  esp2 : Nat
  ss2 : Nat
  cr3 : Nat
  eip : Nat
  eflags : Nat
  eax : Nat
  ecx : Nat
  edx : Nat
  ebx : Nat
  esp : Nat
  ebp : Nat
  esi : Nat
  edi : Nat
  es : Nat
  cs : Nat
  ss : Nat
  ds : Nat
  fs : Nat
  gs : Nat
  ldt : Nat
  reserved : Nat
  iomap_base : Nat

/-- All-zero cpu_tss_entry_t record, the state after the memset in
_cpu_setup_tss. -/
def zeroTssEntry : TssEntry :=
  ⟨0, 0, 0, 0, 0, 0, 0, 0, 0, 0, 0, 0, 0, 0, 0, 0, 0, 0, 0, 0, 0, 0, 0, 0, 0, 0, 0⟩

/-- Contents of cpu_tss[i] after _cpu_setup_tss runs, parameterised by the
core count (MAX_CPU_COUNT), the address of _KERNEL_STACKS_BASE and the stack
size (KERNEL_STACK_SIZE), all configuration values.  The esp0 arithmetic is
the source's unsigned 32-bit arithmetic: subtracting sizeof(uint32_t) is
adding 2^32 - 4 modulo 2^32. -/
def cpu_setup_tss (maxCpuCount stacksBase stackSize : Nat) : Nat → TssEntry :=
  fun i =>
    if i < maxCpuCount then
      { zeroTssEntry with
        ss0 := KERNEL_DS_32
        esp0 := (stacksBase + stackSize * (i + 1) + (2 ^ 32 - 4)) % 2 ^ 32
        es := KERNEL_DS_32
        cs := KERNEL_CS_32
        ss := KERNEL_DS_32
        ds := KERNEL_DS_32
        fs := KERNEL_DS_32
        gs := KERNEL_DS_32
        iomap_base := cpu_tss_entry_size % 2 ^ 16 }
    else zeroTssEntry

/-- Selector value loaded into the task register by _cpu_setup_tss: the ltr
operand is the constant (uint16_t)TSS_SEGMENT on every core. -/
def ltr_loaded_selector : Nat := TSS_SEGMENT % 2 ^ 16

/-- GDT selector of the TSS descriptor slot that _cpu_setup_gdt allocates for
core i: byte offset TSS_SEGMENT + i * 8 into the table. -/
def tss_descriptor_selector (i : Nat) : Nat := TSS_SEGMENT + i * 8

/-! ### Software interrupt dispatcher -/

/-- Return codes of cpu_raise_interrupt. -/
inductive OSReturn where
  | OS_NO_ERR
  | OS_ERR_UNAUTHORIZED_ACTION
deriving DecidableEq

/-- Trace events emitted by cpu_raise_interrupt. -/
inductive TraceEvent where
  | raiseIntStart (line : Nat)
  | raiseIntEnd (line : Nat) (code : OSReturn)
deriving DecidableEq

/-- Kernel state visible to cpu_raise_interrupt: the descriptor tables, the
pseudo-descriptors, the TSS records and the trampoline address table. -/
structure CpuState where
  gdt : Nat → Nat
  gdt_ptr : TablePtr
  idt : Nat → Nat
  idt_ptr : TablePtr
  tss : Nat → TssEntry
  int_handlers : Nat → Nat

/-- Result of one cpu_raise_interrupt call: final kernel state, return code,
the trap vectors executed (in order) and the trace events emitted. -/
structure RaiseOutcome where
  state : CpuState
  ret : OSReturn
  traps : List Nat
  trace : List TraceEvent

/-- The 256-case switch of cpu_raise_interrupt, one case per vector: case k
executes the trap instruction with immediate vector k and nothing else.  The
switch is represented as the dense table of its 256 single-vector stubs,
entry k holding the trap list of case k; dispatching on a line is indexing
the table, and a line matching no case traps nothing. -/
def int_stub_table : List (List Nat) :=
  [[0], [1], [2], [3], [4], [5], [6], [7], [8], [9], [10], [11], [12], [13], [14], [15], [16], [17], [18], [19], [20], [21], [22], [23], [24], [25], [26], [27], [28], [29], [30], [31], [32], [33], [34], [35], [36], [37], [38], [39], [40], [41], [42], [43], [44], [45], [46], [47], [48], [49], [50], [51], [52], [53], [54], [55], [56], [57], [58], [59], [60], [61], [62], [63], [64], [65], [66], [67], [68], [69], [70], [71], [72], [73], [74], [75], [76], [77], [78], [79], [80], [81], [82], [83], [84], [85], [86], [87], [88], [89], [90], [91], [92], [93], [94], [95], [96], [97], [98], [99], [100], [101], [102], [103], [104], [105], [106], [107], [108], [109], [110], [111], [112], [113], [114], [115], [116], [117], [118], [119], [120], [121], [122], [123], [124], [125], [126], [127], [128], [129], [130], [131], [132], [133], [134], [135], [136], [137], [138], [139], [140], [141], [142], [143], [144], [145], [146], [147], [148], [149], [150], [151], [152], [153], [154], [155], [156], [157], [158], [159], [160], [161], [162], [163], [164], [165], [166], [167], [168], [169], [170], [171], [172], [173], [174], [175], [176], [177], [178], [179], [180], [181], [182], [183], [184], [185], [186], [187], [188], [189], [190], [191], [192], [193], [194], [195], [196], [197], [198], [199], [200], [201], [202], [203], [204], [205], [206], [207], [208], [209], [210], [211], [212], [213], [214], [215], [216], [217], [218], [219], [220], [221], [222], [223], [224], [225], [226], [227], [228], [229], [230], [231], [232], [233], [234], [235], [236], [237], [238], [239], [240], [241], [242], [243], [244], [245], [246], [247], [248], [249], [250], [251], [252], [253], [254], [255]]

/-- Dispatch of the switch on a runtime line value. -/
def int_switch_traps (line : Nat) : List Nat := int_stub_table.getD line []

/-- cpu_raise_interrupt: trace the entry, check the line against
MAX_INTERRUPT_LINE and return OS_ERR_UNAUTHORIZED_ACTION early when it is
exceeded, otherwise run the switch raising the trap for the requested line
and return OS_NO_ERR.  No kernel state is written on either path. -/
def cpu_raise_interrupt (s : CpuState) (line : Nat) : RaiseOutcome :=
  if MAX_INTERRUPT_LINE < line then
    { state := s
      ret := OSReturn.OS_ERR_UNAUTHORIZED_ACTION
      traps := []
      trace := [TraceEvent.raiseIntStart line,
                TraceEvent.raiseIntEnd line OSReturn.OS_ERR_UNAUTHORIZED_ACTION] }
  else
    { state := s
      ret := OSReturn.OS_NO_ERR
      traps := int_switch_traps line
      trace := [TraceEvent.raiseIntStart line,
                TraceEvent.raiseIntEnd line OSReturn.OS_NO_ERR] }

/-! ### Decoders reading fields back from the documented bit positions -/

/-- Decoded handler address of a gate record: bits 0..15 and 48..63. -/
def gate_handler (e : Nat) : Nat :=
  (e &&& 0xFFFF) ||| (((e >>> 48) &&& 0xFFFF) <<< 16)

/-- Decoded target code-segment selector of a gate record: bits 16..31. -/
def gate_selector (e : Nat) : Nat := (e >>> 16) &&& 0xFFFF

/-- Decoded gate type nibble: bits 40..43. -/
def gate_type (e : Nat) : Nat := (e >>> 40) &&& 0xF

/-- Decoded gate flag high nibble (privilege and present bits): bits
44..47, read back at the flag byte positions 4..7. -/
def gate_flags (e : Nat) : Nat := (e >>> 40) &&& 0xF0

/-- Decoded descriptor privilege level of a gate record: bits 45..46. -/
def gate_dpl (e : Nat) : Nat := (e >>> 45) &&& 0x3

/-- Present bit of a gate record: bit 47. -/
def gate_present (e : Nat) : Bool := e.testBit 47

/-- Decoded base of a segment record: bits 16..31, 32..39 and 56..63. -/
def seg_base (e : Nat) : Nat :=
  ((e >>> 16) &&& 0xFFFF) ||| (((e >>> 32) &&& 0xFF) <<< 16) |||
    (((e >>> 56) &&& 0xFF) <<< 24)

/-- Decoded limit of a segment record: bits 0..15 and 48..51. -/
def seg_limit (e : Nat) : Nat :=
  (e &&& 0xFFFF) ||| (((e >>> 48) &&& 0xF) <<< 16)

/-- Decoded type nibble of a segment record: bits 40..43. -/
def seg_type (e : Nat) : Nat := (e >>> 40) &&& 0xF

/-- Decoded flag bits of a segment record: the two merged nibbles at bits
44..47 and 52..55, read back at the flag word positions 12..15 and 20..23. -/
def seg_flags (e : Nat) : Nat := (e >>> 32) &&& 0x00F0F000

/-- Present bit of a segment record: bit 47. -/
def seg_present (e : Nat) : Bool := e.testBit 47

/-- Concrete kernel state used to instantiate theorems with hypotheses. -/
def testState : CpuState :=
  { gdt := gdt_initial
    gdt_ptr := ⟨0, 0⟩
    idt := fun _ => 0
    idt_ptr := ⟨0, 0⟩
    tss := fun _ => zeroTssEntry
    int_handlers := fun _ => 0 }

/-! ### Bit-arithmetic toolkit -/

/-- Disjoint bitwise or is addition: a value with k clear low bits or-ed with
a value below 2^k. -/
theorem lor_add_of_mod (a b k : Nat) (ha : a % 2 ^ k = 0) (hb : b < 2 ^ k) :
    a ||| b = a + b := by
  obtain ⟨c, rfl⟩ := Nat.dvd_of_mod_eq_zero ha
  exact (Nat.mul_add_lt_is_or hb c).symm

/-- Disjoint bitwise or, small operand on the left. -/
theorem lor_add_low (a b k : Nat) (ha : a % 2 ^ k = 0) (hb : b < 2 ^ k) :
    b ||| a = a + b := by
  rw [Nat.lor_comm]
  exact lor_add_of_mod a b k ha hb

/-- Masking with a contiguous field mask extracts that field in place. -/
theorem and_field (x k a : Nat) :
    x &&& ((2 ^ a - 1) <<< k) = 2 ^ k * (x / 2 ^ k % 2 ^ a) := by
  apply Nat.eq_of_testBit_eq
  intro i
  rw [show 2 ^ k * (x / 2 ^ k % 2 ^ a) = (x / 2 ^ k % 2 ^ a) <<< k by
    rw [Nat.shiftLeft_eq]; ring]
  rw [show x / 2 ^ k = x >>> k from (Nat.shiftRight_eq_div_pow x k).symm]
  simp only [Nat.testBit_and, Nat.testBit_shiftLeft, Nat.testBit_two_pow_sub_one,
    Nat.testBit_mod_two_pow, Nat.testBit_shiftRight]
  by_cases hk : k ≤ i
  · have h2 : k + (i - k) = i := by omega
    rw [h2]
    simp [hk]
    cases x.testBit i <;> simp
  · simp [hk]

/-- Every line at or below 255 matches its own switch case, which raises
exactly that vector and nothing else. -/
theorem int_switch_traps_id : ∀ v, v < 256 → int_switch_traps v = [v] := by decide

/-- Applying appended store lists is sequential application. -/
theorem applyWrites_append (l1 l2 : List GdtWrite) (t : Nat → Nat) :
    applyWrites (l1 ++ l2) t = applyWrites l2 (applyWrites l1 t) := by
  simp [applyWrites, List.foldl_append]

/-- A slot no store targets keeps its previous contents. -/
theorem applyWrites_notin (ws : List GdtWrite) (t : Nat → Nat) (j : Nat)
    (h : ∀ w ∈ ws, w.idx ≠ j) : applyWrites ws t j = t j := by
  induction ws generalizing t with
  | nil => rfl
  | cons w ws ih =>
    have hw : w.idx ≠ j := h w (List.mem_cons_self w ws)
    have hrest : ∀ x ∈ ws, x.idx ≠ j := fun x hx => h x (List.mem_cons_of_mem w hx)
    show applyWrites ws (fun j2 => if j2 = w.idx then w.val else t j2) j = t j
    rw [ih _ hrest]
    exact if_neg (Ne.symm hw)

/-- Index of the TSS descriptor store for core i. -/
theorem tss_write_idx (i : Nat) : (TSS_SEGMENT + i * 0x08) / 8 = 7 + i := by
  unfold TSS_SEGMENT
  omega

/-- No GDT store ever targets index 0, the null descriptor slot. -/
theorem gdtWrites_idx_ne_zero (n : Nat) (a : Nat → Nat) :
    ∀ w ∈ gdtWrites n a, w.idx ≠ 0 := by
  intro w hw
  unfold gdtWrites at hw
  rcases List.mem_append.mp hw with hfix | hmap
  · unfold fixed_gdt_writes at hfix
    simp only [List.mem_cons, List.not_mem_nil, or_false] at hfix
    rcases hfix with rfl | rfl | rfl | rfl | rfl | rfl <;> decide
  · obtain ⟨i, hi, rfl⟩ := List.mem_map.mp hmap
    show (TSS_SEGMENT + i * 0x08) / 8 ≠ 0
    rw [tss_write_idx]
    omega

/-- Below index 7 the GDT after setup agrees with the fixed stores alone. -/
theorem cpu_setup_gdt_fixed_eval (n : Nat) (a : Nat → Nat) (j : Nat) (h7 : j < 7) :
    cpu_setup_gdt n a j = applyWrites fixed_gdt_writes gdt_initial j := by
  unfold cpu_setup_gdt gdtWrites
  rw [applyWrites_append]
  apply applyWrites_notin
  intro w hw
  obtain ⟨i, hi, rfl⟩ := List.mem_map.mp hw
  show (TSS_SEGMENT + i * 0x08) / 8 ≠ j
  rw [tss_write_idx]
  omega

/-- Looking up slot 7 + i after a range-indexed batch of stores whose indices
are exactly 7 + i returns the store for i. -/
theorem applyWrites_range_map (f : Nat → GdtWrite) (hidx : ∀ i, (f i).idx = 7 + i)
    (t : Nat → Nat) (n i : Nat) (h : i < n) :
    applyWrites ((List.range n).map f) t (7 + i) = (f i).val := by
  induction n with
  | zero => omega
  | succ m ih =>
    rw [List.range_succ, List.map_append, applyWrites_append]
    by_cases him : i = m
    · subst him
      show (if 7 + i = (f i).idx then (f i).val
            else applyWrites ((List.range i).map f) t (7 + i)) = (f i).val
      rw [hidx i, if_pos rfl]
    · have h2 : i < m := by omega
      show (if 7 + i = (f m).idx then (f m).val
            else applyWrites ((List.range m).map f) t (7 + i)) = (f i).val
      rw [hidx m, if_neg (by omega), ih h2]

/-- Slot 7 + i of the GDT after setup holds the TSS descriptor for core i. -/
theorem cpu_setup_gdt_tss_eval (n : Nat) (a : Nat → Nat) (i : Nat) (h : i < n) :
    cpu_setup_gdt n a (7 + i) =
      format_gdt_entry (a i) cpu_tss_entry_size tss_seg_type tss_seg_flags := by
  unfold cpu_setup_gdt gdtWrites
  rw [applyWrites_append]
  exact applyWrites_range_map _ (fun i2 => tss_write_idx i2) _ n i h

/-- Arithmetic normal form of the GDT encoder: every input field sits at its
documented bit positions of the 8-byte record. -/
theorem format_gdt_entry_eq (base limit type flags : Nat) :
    format_gdt_entry base limit type flags =
      limit % 2 ^ 16 + 2 ^ 16 * (base % 2 ^ 16) + 2 ^ 32 * (base / 2 ^ 16 % 2 ^ 8) +
      2 ^ 40 * (type % 2 ^ 4) + 2 ^ 44 * (flags / 2 ^ 12 % 2 ^ 4) +
      2 ^ 48 * (limit / 2 ^ 16 % 2 ^ 4) + 2 ^ 52 * (flags / 2 ^ 20 % 2 ^ 4) +
      2 ^ 56 * (base / 2 ^ 24 % 2 ^ 8) := by
  simp only [format_gdt_entry]
  rw [show (0x00F0F000 : Nat) = ((2 ^ 4 - 1) <<< 12) ||| ((2 ^ 4 - 1) <<< 20) by decide,
      Nat.and_or_distrib_left,
      show (0xFFFF : Nat) = 2 ^ 16 - 1 by norm_num,
      show (0xFF : Nat) = 2 ^ 8 - 1 by norm_num,
      show (0xF : Nat) = 2 ^ 4 - 1 by norm_num,
      show (0xF0000 : Nat) = (2 ^ 4 - 1) <<< 16 by decide,
      show (0xFF000000 : Nat) = (2 ^ 8 - 1) <<< 24 by decide,
      Nat.and_pow_two_sub_one_eq_mod, Nat.and_pow_two_sub_one_eq_mod,
      Nat.and_pow_two_sub_one_eq_mod, Nat.and_pow_two_sub_one_eq_mod,
      and_field, and_field, and_field, and_field,
      Nat.shiftRight_eq_div_pow, Nat.shiftLeft_eq, Nat.shiftLeft_eq, Nat.shiftLeft_eq]
  set b0 := base % 2 ^ 16 with hb0
  set li0 := limit % 2 ^ 16 with hli0
  set b1 := base / 2 ^ 16 % 2 ^ 8 with hb1
  set tb := type % 2 ^ 4 with htb
  set f1 := flags / 2 ^ 12 % 2 ^ 4 with hf1
  set f2 := flags / 2 ^ 20 % 2 ^ 4 with hf2
  set l1 := limit / 2 ^ 16 % 2 ^ 4 with hl1
  set b3 := base / 2 ^ 24 % 2 ^ 8 with hb3
  rw [← Nat.lor_assoc (b1 ||| tb * 2 ^ 8) (2 ^ 12 * f1) (2 ^ 20 * f2)]
  rw [Nat.lor_assoc ((b1 ||| tb * 2 ^ 8) ||| 2 ^ 12 * f1) (2 ^ 20 * f2) (2 ^ 16 * l1)]
  rw [Nat.lor_comm (2 ^ 20 * f2) (2 ^ 16 * l1)]
  rw [← Nat.lor_assoc ((b1 ||| tb * 2 ^ 8) ||| 2 ^ 12 * f1) (2 ^ 16 * l1) (2 ^ 20 * f2)]
  rw [lor_add_low (tb * 2 ^ 8) b1 8 (by omega) (by omega)]
  rw [lor_add_low (2 ^ 12 * f1) (tb * 2 ^ 8 + b1) 12 (by omega) (by omega)]
  rw [lor_add_low (2 ^ 16 * l1) (2 ^ 12 * f1 + (tb * 2 ^ 8 + b1)) 16 (by omega) (by omega)]
  rw [lor_add_low (2 ^ 20 * f2) (2 ^ 16 * l1 + (2 ^ 12 * f1 + (tb * 2 ^ 8 + b1))) 20
      (by omega) (by omega)]
  rw [lor_add_low (2 ^ 24 * b3)
      (2 ^ 20 * f2 + (2 ^ 16 * l1 + (2 ^ 12 * f1 + (tb * 2 ^ 8 + b1)))) 24
      (by omega) (by omega)]
  rw [lor_add_of_mod (b0 * 2 ^ 16) li0 16 (by omega) (by omega)]
  rw [lor_add_low
      ((2 ^ 24 * b3 + (2 ^ 20 * f2 + (2 ^ 16 * l1 + (2 ^ 12 * f1 + (tb * 2 ^ 8 + b1))))) * 2 ^ 32)
      (b0 * 2 ^ 16 + li0) 32 (by omega) (by omega)]
  omega

/-- Arithmetic normal form of the IDT encoder: handler halves, kernel code
selector, type nibble and flag high nibble at their documented positions. -/
theorem format_idt_entry_eq (handler type flags : Nat) :
    format_idt_entry handler type flags =
      handler % 2 ^ 16 + 2 ^ 16 * KERNEL_CS_32 + 2 ^ 40 * (type % 2 ^ 4) +
      2 ^ 44 * (flags / 2 ^ 4 % 2 ^ 4) + 2 ^ 48 * (handler / 2 ^ 16 % 2 ^ 16) := by
  simp only [format_idt_entry, KERNEL_CS_32]
  rw [show (0x0000FFFF : Nat) = 2 ^ 16 - 1 by norm_num,
      show (0xFFFF0000 : Nat) = (2 ^ 16 - 1) <<< 16 by decide,
      show (0xF0 : Nat) = (2 ^ 4 - 1) <<< 4 by decide,
      show (0x0F : Nat) = 2 ^ 4 - 1 by norm_num,
      Nat.and_pow_two_sub_one_eq_mod, Nat.and_pow_two_sub_one_eq_mod,
      and_field, and_field,
      Nat.shiftLeft_eq, Nat.shiftLeft_eq, Nat.shiftLeft_eq, Nat.shiftLeft_eq]
  set h0 := handler % 2 ^ 16 with hh0
  set h1 := handler / 2 ^ 16 % 2 ^ 16 with hh1
  set t0 := type % 2 ^ 4 with ht0
  set f1 := flags / 2 ^ 4 % 2 ^ 4 with hf1
  rw [lor_add_of_mod (8 * 2 ^ 16) h0 16 (by omega) (by omega)]
  rw [lor_add_of_mod (2 ^ 16 * h1) (2 ^ 4 * f1 * 2 ^ 8) 16 (by omega) (by omega)]
  rw [lor_add_of_mod (2 ^ 16 * h1 + 2 ^ 4 * f1 * 2 ^ 8) (t0 * 2 ^ 8) 12
      (by omega) (by omega)]
  rw [lor_add_low ((2 ^ 16 * h1 + 2 ^ 4 * f1 * 2 ^ 8 + t0 * 2 ^ 8) * 2 ^ 32)
      (8 * 2 ^ 16 + h0) 32 (by omega) (by omega)]
  omega

/-- Gate handler decoder in arithmetic form. -/
theorem gate_handler_eq (e : Nat) :
    gate_handler e = e % 2 ^ 16 + 2 ^ 16 * (e / 2 ^ 48 % 2 ^ 16) := by
  unfold gate_handler
  rw [show (0xFFFF : Nat) = 2 ^ 16 - 1 by norm_num,
      Nat.and_pow_two_sub_one_eq_mod, Nat.and_pow_two_sub_one_eq_mod,
      Nat.shiftRight_eq_div_pow, Nat.shiftLeft_eq]
  rw [lor_add_low ((e / 2 ^ 48 % 2 ^ 16) * 2 ^ 16) (e % 2 ^ 16) 16 (by omega) (by omega)]
  ring

/-- Gate selector decoder in arithmetic form. -/
theorem gate_selector_eq (e : Nat) : gate_selector e = e / 2 ^ 16 % 2 ^ 16 := by
  unfold gate_selector
  rw [show (0xFFFF : Nat) = 2 ^ 16 - 1 by norm_num, Nat.and_pow_two_sub_one_eq_mod,
      Nat.shiftRight_eq_div_pow]

/-- Gate type decoder in arithmetic form. -/
theorem gate_type_eq (e : Nat) : gate_type e = e / 2 ^ 40 % 2 ^ 4 := by
  unfold gate_type
  rw [show (0xF : Nat) = 2 ^ 4 - 1 by norm_num, Nat.and_pow_two_sub_one_eq_mod,
      Nat.shiftRight_eq_div_pow]

/-- Gate privilege level decoder in arithmetic form. -/
theorem gate_dpl_eq (e : Nat) : gate_dpl e = e / 2 ^ 45 % 2 ^ 2 := by
  unfold gate_dpl
  rw [show (0x3 : Nat) = 2 ^ 2 - 1 by norm_num, Nat.and_pow_two_sub_one_eq_mod,
      Nat.shiftRight_eq_div_pow]

/-- Gate present bit in arithmetic form. -/
theorem gate_present_eq (e : Nat) : gate_present e = decide (e / 2 ^ 47 % 2 = 1) := by
  unfold gate_present
  exact Nat.testBit_to_div_mod

/-- Segment present bit in arithmetic form. -/
theorem seg_present_div_eq (e : Nat) : seg_present e = decide (e / 2 ^ 47 % 2 = 1) := by
  unfold seg_present
  exact Nat.testBit_to_div_mod

/-- Every TSS descriptor produced during GDT setup has its present bit set,
whatever the record address is. -/
theorem seg_present_tss_entry (a : Nat) :
    seg_present (format_gdt_entry a cpu_tss_entry_size tss_seg_type tss_seg_flags) = true := by
  rw [seg_present_div_eq, format_gdt_entry_eq,
      show tss_seg_type = 9 by decide,
      show tss_seg_flags = 0x408000 by decide,
      show cpu_tss_entry_size = 104 by decide,
      decide_eq_true_eq]
  omega

/-- C1: for every vector above the maximum supported interrupt line,
cpu_raise_interrupt returns the out-of-range error, triggers no trap and
leaves the state untouched; for every vector at or below the maximum,
including the boundary itself, it triggers exactly one trap, for that vector
and no other, and returns success. -/
theorem cpu_raise_interrupt_range_spec (s : CpuState) (v : Nat) :
    (MAX_INTERRUPT_LINE < v →
      (cpu_raise_interrupt s v).ret = OSReturn.OS_ERR_UNAUTHORIZED_ACTION ∧
      (cpu_raise_interrupt s v).traps = [] ∧
      (cpu_raise_interrupt s v).state = s) ∧
    (v ≤ MAX_INTERRUPT_LINE →
      (cpu_raise_interrupt s v).ret = OSReturn.OS_NO_ERR ∧
      (cpu_raise_interrupt s v).traps = [v]) := by
  constructor
  · intro h
    unfold cpu_raise_interrupt
    rw [if_pos h]
    exact ⟨rfl, rfl, rfl⟩
  · intro h
    unfold cpu_raise_interrupt
    rw [if_neg (by omega : ¬ MAX_INTERRUPT_LINE < v)]
    refine ⟨rfl, ?_⟩
    have hm : MAX_INTERRUPT_LINE = 255 := rfl
    exact int_switch_traps_id v (by omega)

/-- Witness for C1: raising line 256 fails with no trap, raising the boundary
line 255 succeeds with exactly the trap for 255. -/
theorem cpu_raise_interrupt_range_spec_witness :
    ((cpu_raise_interrupt testState 256).ret = OSReturn.OS_ERR_UNAUTHORIZED_ACTION ∧
     (cpu_raise_interrupt testState 256).traps = [] ∧
     (cpu_raise_interrupt testState 256).state = testState) ∧
    ((cpu_raise_interrupt testState 255).ret = OSReturn.OS_NO_ERR ∧
     (cpu_raise_interrupt testState 255).traps = [255]) :=
  ⟨(cpu_raise_interrupt_range_spec testState 256).1 (by decide),
   (cpu_raise_interrupt_range_spec testState 255).2 (by decide)⟩

/-- C2: after gate-table setup, every one of the 256 gate entries decodes to
the externally supplied trampoline address for its vector, the kernel code
selector, the interrupt-gate type, privilege level 0, and present bit set. -/
theorem cpu_setup_idt_gates_spec (handlers : Nat → Nat) (v : Nat)
    (hv : v < 256) (hh : handlers v < 2 ^ 32) :
    gate_handler (cpu_setup_idt handlers v) = handlers v ∧
    gate_selector (cpu_setup_idt handlers v) = KERNEL_CS_32 ∧
    gate_type (cpu_setup_idt handlers v) = IDT_TYPE_INT_GATE ∧
    gate_dpl (cpu_setup_idt handlers v) = 0 ∧
    gate_present (cpu_setup_idt handlers v) = true := by
  have he : cpu_setup_idt handlers v = format_idt_entry (handlers v) 14 128 := by
    unfold cpu_setup_idt
    rw [if_pos (show v < IDT_ENTRY_COUNT from hv),
        show IDT_TYPE_INT_GATE = 14 by decide,
        show (IDT_FLAG_PRESENT ||| IDT_FLAG_PL0 : Nat) = 128 by decide]
  refine ⟨?_, ?_, ?_, ?_, ?_⟩
  · rw [he, gate_handler_eq, format_idt_entry_eq]
    simp only [KERNEL_CS_32]
    omega
  · rw [he, gate_selector_eq, format_idt_entry_eq]
    simp only [KERNEL_CS_32]
    omega
  · rw [he, gate_type_eq, format_idt_entry_eq]
    simp only [KERNEL_CS_32, IDT_TYPE_INT_GATE]
    omega
  · rw [he, gate_dpl_eq, format_idt_entry_eq]
    simp only [KERNEL_CS_32]
    omega
  · rw [he, gate_present_eq, format_idt_entry_eq]
    simp only [KERNEL_CS_32, decide_eq_true_eq]
    omega

/-- Witness for C2 at vector 0 with a concrete trampoline address. -/
theorem cpu_setup_idt_gates_spec_witness :
    gate_handler (cpu_setup_idt (fun _ => 0xABCD1234) 0) = 0xABCD1234 ∧
    gate_selector (cpu_setup_idt (fun _ => 0xABCD1234) 0) = KERNEL_CS_32 ∧
    gate_type (cpu_setup_idt (fun _ => 0xABCD1234) 0) = IDT_TYPE_INT_GATE ∧
    gate_dpl (cpu_setup_idt (fun _ => 0xABCD1234) 0) = 0 ∧
    gate_present (cpu_setup_idt (fun _ => 0xABCD1234) 0) = true :=
  cpu_setup_idt_gates_spec (fun _ => 0xABCD1234) 0 (by norm_num) (by norm_num)

/-- C3: after task-state setup, record i has the kernel data selector as its
ring-0 stack selector, ring-0 stack pointer stacksBase plus stackSize times
i plus one minus the word size, kernel selectors in all default segment
fields, the record size as I/O-map base, and zeroed unused stack fields. -/
theorem cpu_setup_tss_fields_spec (maxCpuCount stacksBase stackSize i : Nat)
    (hi : i < maxCpuCount) (h4 : 4 ≤ stacksBase)
    (hlt : stacksBase + stackSize * (i + 1) < 2 ^ 32) :
    (cpu_setup_tss maxCpuCount stacksBase stackSize i).ss0 = KERNEL_DS_32 ∧
    (cpu_setup_tss maxCpuCount stacksBase stackSize i).esp0 =
      stacksBase + stackSize * (i + 1) - 4 ∧
    (cpu_setup_tss maxCpuCount stacksBase stackSize i).es = KERNEL_DS_32 ∧
    (cpu_setup_tss maxCpuCount stacksBase stackSize i).cs = KERNEL_CS_32 ∧
    (cpu_setup_tss maxCpuCount stacksBase stackSize i).ss = KERNEL_DS_32 ∧
    (cpu_setup_tss maxCpuCount stacksBase stackSize i).ds = KERNEL_DS_32 ∧
    (cpu_setup_tss maxCpuCount stacksBase stackSize i).fs = KERNEL_DS_32 ∧
    (cpu_setup_tss maxCpuCount stacksBase stackSize i).gs = KERNEL_DS_32 ∧
    (cpu_setup_tss maxCpuCount stacksBase stackSize i).iomap_base = cpu_tss_entry_size ∧
    (cpu_setup_tss maxCpuCount stacksBase stackSize i).prev_tss = 0 ∧
    (cpu_setup_tss maxCpuCount stacksBase stackSize i).esp1 = 0 ∧
    (cpu_setup_tss maxCpuCount stacksBase stackSize i).ss1 = 0 ∧
    (cpu_setup_tss maxCpuCount stacksBase stackSize i).esp2 = 0 ∧
    (cpu_setup_tss maxCpuCount stacksBase stackSize i).ss2 = 0 := by
  simp only [cpu_setup_tss]
  rw [if_pos hi]
  refine ⟨rfl, ?_, rfl, rfl, rfl, rfl, rfl, rfl, rfl, rfl, rfl, rfl, rfl, rfl⟩
  show (stacksBase + stackSize * (i + 1) + (2 ^ 32 - 4)) % 2 ^ 32 =
    stacksBase + stackSize * (i + 1) - 4
  omega

/-- Witness for C3 at core 0 of a 4-core layout with 4 KiB stacks based at
0x1000. -/
theorem cpu_setup_tss_fields_spec_witness :
    (cpu_setup_tss 4 0x1000 4096 0).ss0 = KERNEL_DS_32 ∧
    (cpu_setup_tss 4 0x1000 4096 0).esp0 = 0x1000 + 4096 * (0 + 1) - 4 ∧
    (cpu_setup_tss 4 0x1000 4096 0).es = KERNEL_DS_32 ∧
    (cpu_setup_tss 4 0x1000 4096 0).cs = KERNEL_CS_32 ∧
    (cpu_setup_tss 4 0x1000 4096 0).ss = KERNEL_DS_32 ∧
    (cpu_setup_tss 4 0x1000 4096 0).ds = KERNEL_DS_32 ∧
    (cpu_setup_tss 4 0x1000 4096 0).fs = KERNEL_DS_32 ∧
    (cpu_setup_tss 4 0x1000 4096 0).gs = KERNEL_DS_32 ∧
    (cpu_setup_tss 4 0x1000 4096 0).iomap_base = cpu_tss_entry_size ∧
    (cpu_setup_tss 4 0x1000 4096 0).prev_tss = 0 ∧
    (cpu_setup_tss 4 0x1000 4096 0).esp1 = 0 ∧
    (cpu_setup_tss 4 0x1000 4096 0).ss1 = 0 ∧
    (cpu_setup_tss 4 0x1000 4096 0).esp2 = 0 ∧
    (cpu_setup_tss 4 0x1000 4096 0).ss2 = 0 :=
  cpu_setup_tss_fields_spec 4 0x1000 4096 0 (by norm_num) (by norm_num) (by norm_num)

/-- C4 counterexample: with 4 cores, 4096-byte stacks based at 0x1000 and
4-byte words, record 3's ring-0 stack pointer is not 0x3FFC; the source
formula stacksBase + stackSize * (i + 1) - 4 yields 0x4FFC at i = 3. -/
theorem cpu_setup_tss_record3_counterexample :
    (cpu_setup_tss 4 0x1000 4096 3).esp0 ≠ 0x3FFC := by decide

/-- C4 amended: with 4 cores, 4096-byte stacks based at 0x1000 and 4-byte
words, record 0 gets ring-0 stack pointer 0x1FFC, record 3 gets 0x4FFC, and
all four records have pairwise distinct ring-0 stack pointers. -/
theorem cpu_setup_tss_concrete_spec :
    (cpu_setup_tss 4 0x1000 4096 0).esp0 = 0x1FFC ∧
    (cpu_setup_tss 4 0x1000 4096 3).esp0 = 0x4FFC ∧
    (cpu_setup_tss 4 0x1000 4096 0).esp0 ≠ (cpu_setup_tss 4 0x1000 4096 1).esp0 ∧
    (cpu_setup_tss 4 0x1000 4096 0).esp0 ≠ (cpu_setup_tss 4 0x1000 4096 2).esp0 ∧
    (cpu_setup_tss 4 0x1000 4096 0).esp0 ≠ (cpu_setup_tss 4 0x1000 4096 3).esp0 ∧
    (cpu_setup_tss 4 0x1000 4096 1).esp0 ≠ (cpu_setup_tss 4 0x1000 4096 2).esp0 ∧
    (cpu_setup_tss 4 0x1000 4096 1).esp0 ≠ (cpu_setup_tss 4 0x1000 4096 3).esp0 ∧
    (cpu_setup_tss 4 0x1000 4096 2).esp0 ≠ (cpu_setup_tss 4 0x1000 4096 3).esp0 := by
  decide

/-- C5: the segment encoder places each input field exactly at the documented
bit positions of the 8-byte record: limit[15:0] at bits 0..15, base[15:0] at
bits 16..31, base[23:16] at bits 32..39, the type nibble at bits 40..43, the
flag nibbles masked by 0x00F0F000 at bits 44..47 and 52..55, limit[19:16] at
bits 48..51, base[31:24] at bits 56..63. -/
theorem format_gdt_entry_layout_spec (base limit type flags : Nat) :
    format_gdt_entry base limit type flags =
      limit % 2 ^ 16 + 2 ^ 16 * (base % 2 ^ 16) + 2 ^ 32 * (base / 2 ^ 16 % 2 ^ 8) +
      2 ^ 40 * (type % 2 ^ 4) + 2 ^ 44 * (flags / 2 ^ 12 % 2 ^ 4) +
      2 ^ 48 * (limit / 2 ^ 16 % 2 ^ 4) + 2 ^ 52 * (flags / 2 ^ 20 % 2 ^ 4) +
      2 ^ 56 * (base / 2 ^ 24 % 2 ^ 8) :=
  format_gdt_entry_eq base limit type flags

/-- C6: the segment-table pseudo-descriptor size is entry count times 8 minus
one with entry count 7 plus one per core, the gate-table pseudo-descriptor
size is 256 times 8 minus one, and both base fields hold their table
addresses. -/
theorem table_ptr_size_spec (maxCpuCount gdtAddr idtAddr : Nat)
    (hc : 8 * GDT_ENTRY_COUNT maxCpuCount - 1 < 2 ^ 16)
    (hg : gdtAddr < 2 ^ 32) (hia : idtAddr < 2 ^ 32) :
    (cpu_gdt_ptr maxCpuCount gdtAddr).size = GDT_ENTRY_COUNT maxCpuCount * 8 - 1 ∧
    (cpu_gdt_ptr maxCpuCount gdtAddr).base = gdtAddr ∧
    (cpu_idt_ptr idtAddr).size = 256 * 8 - 1 ∧
    (cpu_idt_ptr idtAddr).base = idtAddr := by
  simp only [cpu_gdt_ptr, cpu_idt_ptr, GDT_ENTRY_COUNT, IDT_ENTRY_COUNT] at hc ⊢
  refine ⟨by omega, by omega, by omega, by omega⟩

/-- Witness for C6 with 4 cores and concrete table addresses. -/
theorem table_ptr_size_spec_witness :
    (cpu_gdt_ptr 4 0x1000).size = GDT_ENTRY_COUNT 4 * 8 - 1 ∧
    (cpu_gdt_ptr 4 0x1000).base = 0x1000 ∧
    (cpu_idt_ptr 0x2000).size = 256 * 8 - 1 ∧
    (cpu_idt_ptr 0x2000).base = 0x2000 :=
  table_ptr_size_spec 4 0x1000 0x2000 (by decide) (by norm_num) (by norm_num)

/-- C7: segment-table index 0 is all-zero before and after setup, no store of
the setup ever targets it, and after setup every populated index, the six
fixed descriptors and the per-core task descriptors, has its present bit
set. -/
theorem gdt_null_and_present_spec (n : Nat) (a : Nat → Nat) :
    gdt_initial 0 = 0 ∧
    (∀ w ∈ gdtWrites n a, w.idx ≠ 0) ∧
    cpu_setup_gdt n a 0 = 0 ∧
    (∀ j, 1 ≤ j → j ≤ 6 → seg_present (cpu_setup_gdt n a j) = true) ∧
    (∀ i, i < n → seg_present (cpu_setup_gdt n a (7 + i)) = true) := by
  refine ⟨rfl, gdtWrites_idx_ne_zero n a, ?_, ?_, ?_⟩
  · unfold cpu_setup_gdt
    rw [applyWrites_notin _ _ _ (fun w hw => gdtWrites_idx_ne_zero n a w hw)]
    rfl
  · intro j h1 h6
    rw [cpu_setup_gdt_fixed_eval n a j (by omega)]
    interval_cases j <;> decide
  · intro i hi2
    rw [cpu_setup_gdt_tss_eval n a i hi2]
    exact seg_present_tss_entry (a i)

/-- Witness for C7: with one core and a concrete record address, the kernel
code descriptor and the core task descriptor are present. -/
theorem gdt_null_and_present_spec_witness :
    seg_present (cpu_setup_gdt 1 (fun _ => 0x2000) 1) = true ∧
    seg_present (cpu_setup_gdt 1 (fun _ => 0x2000) (7 + 0)) = true :=
  ⟨(gdt_null_and_present_spec 1 (fun _ => 0x2000)).2.2.2.1 1 (by norm_num) (by norm_num),
   (gdt_null_and_present_spec 1 (fun _ => 0x2000)).2.2.2.2 0 (by norm_num)⟩

/-- C8: encoding then decoding a segment and a gate record recovers the
original fields for the boundary inputs: zero base and limit, maximal base
0xFFFFFFFF with limit 0xFFFFF, and all flag bits set or all cleared. -/
theorem encode_decode_roundtrip_spec :
    seg_base (format_gdt_entry 0 0 0 0) = 0 ∧
    seg_limit (format_gdt_entry 0 0 0 0) = 0 ∧
    seg_type (format_gdt_entry 0 0 0 0) = 0 ∧
    seg_flags (format_gdt_entry 0 0 0 0) = 0 ∧
    seg_base (format_gdt_entry 0xFFFFFFFF 0xFFFFF 0xF 0x00F0F000) = 0xFFFFFFFF ∧
    seg_limit (format_gdt_entry 0xFFFFFFFF 0xFFFFF 0xF 0x00F0F000) = 0xFFFFF ∧
    seg_type (format_gdt_entry 0xFFFFFFFF 0xFFFFF 0xF 0x00F0F000) = 0xF ∧
    seg_flags (format_gdt_entry 0xFFFFFFFF 0xFFFFF 0xF 0x00F0F000) = 0x00F0F000 ∧
    seg_base (format_gdt_entry 0xFFFFFFFF 0xFFFFF 0 0) = 0xFFFFFFFF ∧
    seg_limit (format_gdt_entry 0xFFFFFFFF 0xFFFFF 0 0) = 0xFFFFF ∧
    seg_type (format_gdt_entry 0xFFFFFFFF 0xFFFFF 0 0) = 0 ∧
    seg_flags (format_gdt_entry 0xFFFFFFFF 0xFFFFF 0 0) = 0 ∧
    seg_base (format_gdt_entry 0 0 0xF 0x00F0F000) = 0 ∧
    seg_limit (format_gdt_entry 0 0 0xF 0x00F0F000) = 0 ∧
    seg_type (format_gdt_entry 0 0 0xF 0x00F0F000) = 0xF ∧
    seg_flags (format_gdt_entry 0 0 0xF 0x00F0F000) = 0x00F0F000 ∧
    gate_handler (format_idt_entry 0 0 0) = 0 ∧
    gate_type (format_idt_entry 0 0 0) = 0 ∧
    gate_flags (format_idt_entry 0 0 0) = 0 ∧
    gate_selector (format_idt_entry 0 0 0) = KERNEL_CS_32 ∧
    gate_handler (format_idt_entry 0xFFFFFFFF 0xF 0xF0) = 0xFFFFFFFF ∧
    gate_type (format_idt_entry 0xFFFFFFFF 0xF 0xF0) = 0xF ∧
    gate_flags (format_idt_entry 0xFFFFFFFF 0xF 0xF0) = 0xF0 ∧
    gate_selector (format_idt_entry 0xFFFFFFFF 0xF 0xF0) = KERNEL_CS_32 := by
  decide

/-- C9 counterexample: on core 1 the task register is not loaded with core
1's own task-descriptor selector; the ltr operand is the fixed selector
TSS_SEGMENT. -/
theorem ltr_selector_counterexample :
    ltr_loaded_selector ≠ tss_descriptor_selector 1 := by decide

/-- C9 amended: task-state setup always loads the task register with the
fixed selector TSS_SEGMENT, which is the task-descriptor selector of core 0
only. -/
theorem ltr_selector_amended_spec :
    ltr_loaded_selector = tss_descriptor_selector 0 := by decide

/-- C10: cpu_raise_interrupt leaves the whole kernel state, in particular the
segment table, gate table, task-state records, both pseudo-descriptors and
the trampoline address table, unchanged; its only effects are the single
trap when the line is in range, the two trace events, and its return
value. -/
theorem cpu_raise_interrupt_frame_spec (s : CpuState) (v : Nat) :
    (cpu_raise_interrupt s v).state = s ∧
    (cpu_raise_interrupt s v).state.gdt = s.gdt ∧
    (cpu_raise_interrupt s v).state.gdt_ptr = s.gdt_ptr ∧
    (cpu_raise_interrupt s v).state.idt = s.idt ∧
    (cpu_raise_interrupt s v).state.idt_ptr = s.idt_ptr ∧
    (cpu_raise_interrupt s v).state.tss = s.tss ∧
    (cpu_raise_interrupt s v).state.int_handlers = s.int_handlers ∧
    (cpu_raise_interrupt s v).traps = (if v ≤ MAX_INTERRUPT_LINE then [v] else []) ∧
    (cpu_raise_interrupt s v).trace =
      [TraceEvent.raiseIntStart v,
       TraceEvent.raiseIntEnd v (cpu_raise_interrupt s v).ret] := by
  by_cases h : MAX_INTERRUPT_LINE < v
  · unfold cpu_raise_interrupt
    rw [if_pos h]
    refine ⟨rfl, rfl, rfl, rfl, rfl, rfl, rfl, ?_, rfl⟩
    rw [if_neg (by omega : ¬ v ≤ MAX_INTERRUPT_LINE)]
  · unfold cpu_raise_interrupt
    rw [if_neg h]
    refine ⟨rfl, rfl, rfl, rfl, rfl, rfl, rfl, ?_, rfl⟩
    rw [if_pos (by omega : v ≤ MAX_INTERRUPT_LINE)]
    have hm : MAX_INTERRUPT_LINE = 255 := rfl
    exact int_switch_traps_id v (by omega)

end NUTK
